import Mathlib

/-!
Verification of the "find Batman" click-search game (NeuralNinjas repository).

The repository contains three JavaScript variants of the same game:
  * `src/front-end/script.js` (first half): the basic variant — upload guard,
    click hit-testing, attempts counter, play-again and reset.
  * `src/front-end/script.js` (second half): the timer+score variant — adds a
    running timer started at game entry, a click counter, and
    `calculateScore(clicks, seconds) = max(0, 1000 - clicks*50 - seconds*10)`
    computed on the winning click.
  * `src/unnamed/part_000` (game section): the YOLO-backend variant — adds
    `giveUp`, a backend-provided placement applied by `processUploadedImage`
    (`batmanLocation.radius = data.batman.radius || 42`), and the same click
    handler as the basic variant.

We embed each variant's mutable module-level state as a structure and each
event handler as a pure state-transition function, translated line by line
from the source.  JavaScript numbers are modelled as exact rationals (ℚ);
click markers record their scheduled-removal delay (`some 1000` for the
1-second `setTimeout` on a miss, `none` for the permanent success marker),
following the design note that the core records marker history while the UI
layer performs the scheduled removal.
-/

/-- The target placement: normalized x, y in [0,1] and a pixel radius.
Mirrors the mutable `batmanLocation` object `{x, y, radius}` of the source. -/
structure Location where
  x : ℚ
  y : ℚ
  radius : ℚ
deriving DecidableEq, Repr

/-- `batmanLocation` as initialized in every variant:
`{ x: 0.5, y: 0.5, radius: 50 }`. -/
def initialBatmanLocation : Location := { x := 1/2, y := 1/2, radius := 50 }

/-- Whether a click marker is the success marker (`success-marker` class added)
or a plain miss marker. -/
inductive MarkerKind where
  | hit
  | miss
deriving DecidableEq, Repr

/-- One click marker appended to `gameContainer`: its position
(`style.left`/`style.top`) and, when the source schedules
`setTimeout(() => marker.remove(), 1000)`, the removal delay in
milliseconds (`none` for permanent markers). -/
structure Marker where
  x : ℚ
  y : ℚ
  kind : MarkerKind
  removeAfterMs : Option ℕ
deriving DecidableEq, Repr

/-- Squared Euclidean distance between the click point and the target point.
The source computes `Math.sqrt(Math.pow(clickX-batmanX,2) + Math.pow(clickY-batmanY,2))`
and compares it with the radius; over exact rationals we carry the square. -/
def distSq (cx cy tx ty : ℚ) : ℚ :=
  (cx - tx) ^ 2 + (cy - ty) ^ 2

/-- The hit test of every click handler: the target point is the normalized
location scaled by the rendered image width/height
(`batmanLocation.x * gameImage.width`, `batmanLocation.y * gameImage.height`)
and the click hits iff `distance <= batmanLocation.radius`, carried here as
the equivalent comparison of squares (exact over ℚ; see the bridge theorem
to `Real.sqrt` below). -/
def isHit (cx cy : ℚ) (loc : Location) (w h : ℚ) : Bool :=
  decide (distSq cx cy (loc.x * w) (loc.y * h) ≤ loc.radius ^ 2)

/-- `calculateScore` from the timer+score variant:
`Math.max(0, 1000 - clicks*50 - seconds*10)`. -/
def calculateScore (clicks seconds : ℕ) : ℤ :=
  let baseScore : ℤ := 1000
  let clickPenalty : ℤ := (clicks : ℤ) * 50
  let timePenalty : ℤ := (seconds : ℤ) * 10
  max 0 (baseScore - clickPenalty - timePenalty)

/-- The UI step shown by `showStep` across the variants. -/
inductive Step where
  | upload
  | ready
  | game
  | results
deriving DecidableEq, Repr

/-- Mutable state of the YOLO-backend variant (`src/unnamed/part_000`,
game section): the module-level `gameActive`, `attempts`, `processing`,
`batmanLocation`, the appended click markers, the `message` text, the file
input value, and the active step. -/
structure GameStateA where
  gameActive : Bool
  attempts : ℕ
  processing : Bool
  loc : Location
  markers : List Marker
  message : String
  fileInputValue : String
  step : Step
deriving DecidableEq, Repr

/-- The initial (Idle) state of the YOLO-backend variant: all module-level
variables at their declared initial values, the upload step active. -/
def initialStateA : GameStateA :=
  { gameActive := false
    attempts := 0
    processing := false
    loc := initialBatmanLocation
    markers := []
    message := ""
    fileInputValue := ""
    step := Step.upload }

/-- The win message
`` `You found Batman in ${attempts} attempt${attempts !== 1 ? 's' : ''}!` ``. -/
def winMessage (attempts : ℕ) : String :=
  "You found Batman in " ++ toString attempts ++
    (if attempts ≠ 1 then " attempts" else " attempt") ++ "!"

/-- The `gameImage` click handler of the YOLO-backend variant (identical in
the basic variant): return if not active; increment `attempts`; compute the
click offset and the scaled target point; on `distance <= radius` append a
permanent success marker, set the win message, deactivate the game; otherwise
append a miss marker scheduled for removal after 1000 ms and set the
try-again message. -/
def handleClickA (s : GameStateA) (w h cx cy : ℚ) : GameStateA :=
  if s.gameActive = false then s
  else
    let attempts := s.attempts + 1
    if isHit cx cy s.loc w h then
      { s with
          attempts := attempts
          markers := s.markers ++ [⟨cx, cy, MarkerKind.hit, none⟩]
          message := winMessage attempts
          gameActive := false }
    else
      { s with
          attempts := attempts
          markers := s.markers ++ [⟨cx, cy, MarkerKind.miss, some 1000⟩]
          message := "Not quite! Keep looking..." }

/-- `giveUp()` of the YOLO-backend variant: return if not active; deactivate;
append the permanent reveal marker at the scaled target point
(`revealBatmanMarker`); set the reveal message. -/
def giveUp (s : GameStateA) (w h : ℚ) : GameStateA :=
  if s.gameActive = false then s
  else
    { s with
        gameActive := false
        markers := s.markers ++ [⟨s.loc.x * w, s.loc.y * h, MarkerKind.hit, none⟩]
        message := "Batman revealed. Try again!" }

/-- `playAgain()` of the YOLO-backend variant: remove every `.click-marker`,
reactivate the game, zero `attempts`, clear the message.  `batmanLocation`
is not touched. -/
def playAgain (s : GameStateA) : GameStateA :=
  { s with
      markers := []
      gameActive := true
      attempts := 0
      message := "" }

/-- `resetGame()` of the YOLO-backend variant: deactivate, zero `attempts`,
clear the message and the file input, remove every marker, show the upload
step.  `batmanLocation` and `processing` are not touched. -/
def resetGame (s : GameStateA) : GameStateA :=
  { s with
      gameActive := false
      attempts := 0
      message := ""
      fileInputValue := ""
      markers := []
      step := Step.upload }

/-- A file as seen by the upload handlers: only its MIME `type` matters. -/
structure UploadFile where
  mimeType : String
deriving DecidableEq, Repr

/-- The guard `file.type.startsWith('image/')`, as a prefix test on the
character sequence of the MIME type string. -/
def mimeTypeIsImage (mimeType : String) : Bool :=
  "image/".toList.isPrefixOf mimeType.toList

/-- The `fileInput` change / drop handler head shared by the variants:
`const file = files[0]; if (file && file.type.startsWith('image/'))
processUploadedImage(file);` — followed by the synchronous head of
`processUploadedImage` (`if (processing) return; processing = true;`
set the processing message).  Returns the new state and whether processing
was started; when the guard fails the handler body is skipped entirely. -/
def fileSelect (s : GameStateA) (file : Option UploadFile) : GameStateA × Bool :=
  match file with
  | none => (s, false)
  | some f =>
      if mimeTypeIsImage f.mimeType then
        if s.processing then (s, false)
        else ({ s with processing := true,
                       message := "Processing image with YOLO segmentation..." }, true)
      else (s, false)

/-- The radius actually stored by `processUploadedImage`:
`batmanLocation.radius = data.batman.radius || 42`.  JavaScript `||` replaces
a missing or zero (falsy) delivered radius with the literal 42. -/
def radiusFromResponse (delivered : Option ℚ) : ℚ :=
  match delivered with
  | none => 42
  | some r => if r = 0 then 42 else r

/-- The successful branch of `processUploadedImage` followed by
`startGame(imagePath)`: store the delivered placement
(`batmanLocation.x = data.batman.x_norm`, `…y = data.batman.y_norm`,
`…radius = data.batman.radius || 42`), activate the game, zero `attempts`,
clear the message, show the game step, clear `processing` (the `finally`
block). -/
def applyProcessResponse (s : GameStateA) (xNorm yNorm : ℚ) (delivered : Option ℚ) :
    GameStateA :=
  { s with
      loc := { x := xNorm, y := yNorm, radius := radiusFromResponse delivered }
      gameActive := true
      attempts := 0
      message := ""
      step := Step.game
      processing := false }

/-- Mutable state of the timer+score variant (`src/front-end/script.js`,
second half): `gameActive`, the `clicks` counter, `startTime`
(`Date.now()` reading in milliseconds, `null` before the first game),
whether `timerInterval` is set (the 100 ms display tick is running),
`compositeImagePath`, the markers, and the final score shown by
`showResults` (`none` until a round is won). -/
structure TimedState where
  gameActive : Bool
  clicks : ℕ
  startTime : Option ℕ
  timerRunning : Bool
  compositeImagePath : Option String
  markers : List Marker
  finalScore : Option ℤ
  fileInputValue : String
  step : Step
deriving DecidableEq, Repr

/-- `startGame()` of the timer+score variant: load the composite image, show
the game step, record `startTime = Date.now()`, start the 100 ms timer
interval, zero `clicks`, activate the game. -/
def startGameTimed (s : TimedState) (now : ℕ) : TimedState :=
  { s with
      step := Step.game
      startTime := some now
      timerRunning := true
      clicks := 0
      gameActive := true }

/-- The `gameImage` click handler of the timer+score variant: return if not
active; increment `clicks`; on `distance <= radius` clear the timer interval,
deactivate, append the permanent success marker, and compute
`calculateScore(clicks, Math.floor((Date.now() - startTime) / 1000))`
(a `null` start time coerces to 0, as in JavaScript); otherwise append a miss
marker scheduled for removal after 1000 ms. -/
def handleClickTimed (s : TimedState) (loc : Location) (w h cx cy : ℚ) (now : ℕ) :
    TimedState :=
  if s.gameActive = false then s
  else
    let clicks := s.clicks + 1
    if isHit cx cy loc w h then
      let timeElapsed := (now - s.startTime.getD 0) / 1000
      { s with
          clicks := clicks
          timerRunning := false
          gameActive := false
          markers := s.markers ++ [⟨cx, cy, MarkerKind.hit, none⟩]
          finalScore := some (calculateScore clicks timeElapsed) }
    else
      { s with
          clicks := clicks
          markers := s.markers ++ [⟨cx, cy, MarkerKind.miss, some 1000⟩] }

/-- `resetGame()` of the timer+score variant: deactivate, zero `clicks`, null
`startTime` and `compositeImagePath`, clear the file input, clear the timer
interval if set, remove every marker, show the upload step. -/
def resetGameTimed (s : TimedState) : TimedState :=
  { s with
      gameActive := false
      clicks := 0
      startTime := none
      compositeImagePath := none
      fileInputValue := ""
      timerRunning := false
      markers := []
      step := Step.upload }

/-- Claim C1: for every click processed while the game is active, the click is
a hit iff the Euclidean distance between the click point and the target point
(normalized target scaled by the rendered width/height) is at most the
placement radius; the inequality is inclusive, so distance exactly equal to
the radius is a hit and radius + ε (ε > 0) is a miss. -/
theorem hit_iff_dist_le_radius (loc : Location) (w h cx cy : ℚ)
    (hr : 0 ≤ loc.radius) :
    (isHit cx cy loc w h = true ↔
      Real.sqrt (((cx - loc.x * w : ℚ) : ℝ) ^ 2 + ((cy - loc.y * h : ℚ) : ℝ) ^ 2) ≤
        (loc.radius : ℝ)) ∧
    (Real.sqrt (((cx - loc.x * w : ℚ) : ℝ) ^ 2 + ((cy - loc.y * h : ℚ) : ℝ) ^ 2) =
        (loc.radius : ℝ) → isHit cx cy loc w h = true) ∧
    (∀ ε : ℝ, 0 < ε →
      Real.sqrt (((cx - loc.x * w : ℚ) : ℝ) ^ 2 + ((cy - loc.y * h : ℚ) : ℝ) ^ 2) =
        (loc.radius : ℝ) + ε → isHit cx cy loc w h = false) := by
  have hrR : (0 : ℝ) ≤ (loc.radius : ℚ) := by exact_mod_cast hr
  have key : isHit cx cy loc w h = true ↔
      Real.sqrt (((cx - loc.x * w : ℚ) : ℝ) ^ 2 + ((cy - loc.y * h : ℚ) : ℝ) ^ 2) ≤
        (loc.radius : ℝ) := by
    have cast1 : ((cx - loc.x * w : ℚ) : ℝ) ^ 2 + ((cy - loc.y * h : ℚ) : ℝ) ^ 2 =
        (((cx - loc.x * w) ^ 2 + (cy - loc.y * h) ^ 2 : ℚ) : ℝ) := by
      push_cast; ring
    rw [isHit, decide_eq_true_iff, Real.sqrt_le_left hrR, cast1, distSq]
    exact_mod_cast Iff.rfl
  refine ⟨key, fun he => key.2 (le_of_eq he), fun ε hε he => ?_⟩
  have hnot : ¬ Real.sqrt (((cx - loc.x * w : ℚ) : ℝ) ^ 2 +
      ((cy - loc.y * h : ℚ) : ℝ) ^ 2) ≤ (loc.radius : ℝ) := by
    rw [he]; linarith
  rcases Bool.eq_false_or_eq_true (isHit cx cy loc w h) with hb | hb
  · exact absurd (key.1 hb) hnot
  · exact hb

/-- Witness for C1 at the spec's scenario: target (0.5, 0.5), radius 50,
rendered image 800 × 600, click at (400, 300). -/
theorem hit_iff_dist_le_radius_witness :
    (0 : ℚ) ≤ initialBatmanLocation.radius ∧
    (isHit 400 300 initialBatmanLocation 800 600 = true ↔
      Real.sqrt (((400 - initialBatmanLocation.x * 800 : ℚ) : ℝ) ^ 2 +
          ((300 - initialBatmanLocation.y * 600 : ℚ) : ℝ) ^ 2) ≤
        (initialBatmanLocation.radius : ℝ)) :=
  ⟨by norm_num [initialBatmanLocation],
   (hit_iff_dist_le_radius initialBatmanLocation 800 600 400 300
     (by norm_num [initialBatmanLocation])).1⟩

/-- Claim C2: for every non-negative integer number of attempts and elapsed
seconds, the score computed at the Won transition is
max(0, 1000 − attempts·50 − elapsed·10); in particular 3 attempts in 20
seconds score 650. -/
theorem score_closed_form :
    (∀ attempts elapsedSeconds : ℕ,
      calculateScore attempts elapsedSeconds =
        max 0 (1000 - (attempts : ℤ) * 50 - (elapsedSeconds : ℤ) * 10)) ∧
    calculateScore 3 20 = 650 :=
  ⟨fun _ _ => rfl, by decide⟩

/-- Claim C3: the score is monotonically non-increasing in each argument and
never negative. -/
theorem score_monotone_nonneg :
    (∀ attempts t₁ t₂ : ℕ, t₁ ≤ t₂ →
      calculateScore attempts t₂ ≤ calculateScore attempts t₁) ∧
    (∀ a₁ a₂ t : ℕ, a₁ ≤ a₂ → calculateScore a₂ t ≤ calculateScore a₁ t) ∧
    (∀ a t : ℕ, 0 ≤ calculateScore a t) := by
  refine ⟨fun a t₁ t₂ h => ?_, fun a₁ a₂ t h => ?_, fun a t => le_max_left 0 _⟩
  · have : (1000 - (a : ℤ) * 50 - (t₂ : ℤ) * 10) ≤
        (1000 - (a : ℤ) * 50 - (t₁ : ℤ) * 10) := by omega
    exact max_le_max le_rfl this
  · have : (1000 - (a₂ : ℤ) * 50 - (t : ℤ) * 10) ≤
        (1000 - (a₁ : ℤ) * 50 - (t : ℤ) * 10) := by omega
    exact max_le_max le_rfl this

/-- Witness for C3 at concrete inputs: 2 attempts with 3 ≤ 5 seconds, then
1 ≤ 4 attempts with 7 seconds, then non-negativity at (30, 100). -/
theorem score_monotone_nonneg_witness :
    ((3 : ℕ) ≤ 5 ∧ calculateScore 2 5 ≤ calculateScore 2 3) ∧
    ((1 : ℕ) ≤ 4 ∧ calculateScore 4 7 ≤ calculateScore 1 7) ∧
    (0 : ℤ) ≤ calculateScore 30 100 :=
  ⟨⟨by decide, score_monotone_nonneg.1 2 3 5 (by decide)⟩,
   ⟨by decide, score_monotone_nonneg.2.1 1 4 7 (by decide)⟩,
   score_monotone_nonneg.2.2 30 100⟩

/-- A concrete Playing state of the YOLO-backend variant: the initial state
after the game has been activated (as `startGame` leaves it). -/
def samplePlaying : GameStateA :=
  { initialStateA with gameActive := true, step := Step.game }

/-- Claim C4: a miss-click received while Playing is a self-transition —
`attempts` is incremented by exactly one, a miss marker is appended at the
click location, the state remains Playing; the miss marker is transient
(scheduled for removal after the fixed 1000 ms display duration) while a hit
marker carries no removal schedule (permanent until reset). -/
theorem miss_click_self_transition (s : GameStateA) (w h cx cy : ℚ)
    (hact : s.gameActive = true) :
    (isHit cx cy s.loc w h = false →
      handleClickA s w h cx cy =
        { s with
            attempts := s.attempts + 1
            markers := s.markers ++ [⟨cx, cy, MarkerKind.miss, some 1000⟩]
            message := "Not quite! Keep looking..." } ∧
      (handleClickA s w h cx cy).gameActive = true) ∧
    (isHit cx cy s.loc w h = true →
      (handleClickA s w h cx cy).markers =
        s.markers ++ [⟨cx, cy, MarkerKind.hit, none⟩]) := by
  constructor
  · intro hmiss
    constructor
    · simp [handleClickA, hact, hmiss]
    · simp [handleClickA, hact, hmiss]
  · intro hhit
    simp [handleClickA, hact, hhit]

/-- Witness for C4: from the sample Playing state (target (0.5, 0.5),
radius 50, rendered 800 × 600), the click (0, 0) misses and the click
(400, 300) hits. -/
theorem miss_click_self_transition_witness :
    samplePlaying.gameActive = true ∧
    isHit 0 0 samplePlaying.loc 800 600 = false ∧
    (handleClickA samplePlaying 800 600 0 0 =
      { samplePlaying with
          attempts := samplePlaying.attempts + 1
          markers := samplePlaying.markers ++ [⟨0, 0, MarkerKind.miss, some 1000⟩]
          message := "Not quite! Keep looking..." } ∧
      (handleClickA samplePlaying 800 600 0 0).gameActive = true) ∧
    isHit 400 300 samplePlaying.loc 800 600 = true ∧
    (handleClickA samplePlaying 800 600 400 300).markers =
      samplePlaying.markers ++ [⟨400, 300, MarkerKind.hit, none⟩] :=
  ⟨rfl,
   by norm_num [isHit, distSq, samplePlaying, initialStateA, initialBatmanLocation],
   (miss_click_self_transition samplePlaying 800 600 0 0 rfl).1
     (by norm_num [isHit, distSq, samplePlaying, initialStateA, initialBatmanLocation]),
   by norm_num [isHit, distSq, samplePlaying, initialStateA, initialBatmanLocation],
   (miss_click_self_transition samplePlaying 800 600 400 300 rfl).2
     (by norm_num [isHit, distSq, samplePlaying, initialStateA, initialBatmanLocation])⟩

/-- Claim C5: a hit-click in the Playing state is terminal for the round —
the running timer is stopped, the score is computed from the clicks and
elapsed seconds at the moment of the hit, a permanent success marker is
appended, and afterwards no further click changes the counter, markers or
state (so elapsed time stops mattering for the round). -/
theorem hit_click_terminal (s : TimedState) (loc : Location) (w h cx cy : ℚ)
    (now : ℕ) (hact : s.gameActive = true) (htimer : s.timerRunning = true)
    (hhit : isHit cx cy loc w h = true) :
    (handleClickTimed s loc w h cx cy now).timerRunning = false ∧
    (handleClickTimed s loc w h cx cy now).gameActive = false ∧
    (handleClickTimed s loc w h cx cy now).finalScore =
      some (calculateScore (s.clicks + 1) ((now - s.startTime.getD 0) / 1000)) ∧
    (handleClickTimed s loc w h cx cy now).markers =
      s.markers ++ [⟨cx, cy, MarkerKind.hit, none⟩] ∧
    (∀ loc' : Location, ∀ w' h' cx' cy' : ℚ, ∀ now' : ℕ,
      handleClickTimed (handleClickTimed s loc w h cx cy now) loc' w' h' cx' cy' now' =
        handleClickTimed s loc w h cx cy now) := by
  have h1 : handleClickTimed s loc w h cx cy now =
      { s with
          clicks := s.clicks + 1
          timerRunning := false
          gameActive := false
          markers := s.markers ++ [⟨cx, cy, MarkerKind.hit, none⟩]
          finalScore :=
            some (calculateScore (s.clicks + 1) ((now - s.startTime.getD 0) / 1000)) } := by
    simp [handleClickTimed, hact, hhit]
  rw [h1]
  refine ⟨rfl, rfl, rfl, rfl, fun loc' w' h' cx' cy' now' => ?_⟩
  simp [handleClickTimed]

/-- The initial (Idle) state of the timer+score variant. -/
def initialTimedState : TimedState :=
  { gameActive := false
    clicks := 0
    startTime := none
    timerRunning := false
    compositeImagePath := none
    markers := []
    finalScore := none
    fileInputValue := ""
    step := Step.upload }

/-- A concrete timed Playing state: the game started at clock reading
5000 ms. -/
def sampleTimed : TimedState := startGameTimed initialTimedState 5000

/-- Witness for C5: from the sample timed Playing state, the hit-click at
(400, 300) at clock reading 25000 ms (20 elapsed seconds) stops the timer
and records the computed score. -/
theorem hit_click_terminal_witness :
    sampleTimed.gameActive = true ∧
    sampleTimed.timerRunning = true ∧
    isHit 400 300 initialBatmanLocation 800 600 = true ∧
    (handleClickTimed sampleTimed initialBatmanLocation 800 600 400 300 25000).timerRunning
      = false ∧
    (handleClickTimed sampleTimed initialBatmanLocation 800 600 400 300 25000).finalScore =
      some (calculateScore (sampleTimed.clicks + 1)
        ((25000 - sampleTimed.startTime.getD 0) / 1000)) :=
  ⟨rfl, rfl, by norm_num [isHit, distSq, initialBatmanLocation],
   (hit_click_terminal sampleTimed initialBatmanLocation 800 600 400 300 25000
     rfl rfl (by norm_num [isHit, distSq, initialBatmanLocation])).1,
   (hit_click_terminal sampleTimed initialBatmanLocation 800 600 400 300 25000
     rfl rfl (by norm_num [isHit, distSq, initialBatmanLocation])).2.2.1⟩

/-- Claim C6: for a session in a terminal state, `playAgain` clears all
markers, resets `attempts` to 0, returns to Playing, and leaves the target
placement unchanged — including after a `giveUp` followed by `playAgain`. -/
theorem playAgain_preserves_placement (s t : GameStateA) (w h : ℚ)
    (hterm : s.gameActive = false) (hplay : t.gameActive = true) :
    (playAgain s).markers = [] ∧
    (playAgain s).attempts = 0 ∧
    (playAgain s).gameActive = true ∧
    (playAgain s).loc = s.loc ∧
    (playAgain (giveUp t w h)).attempts = 0 ∧
    (playAgain (giveUp t w h)).markers = [] ∧
    (playAgain (giveUp t w h)).loc = t.loc := by
  refine ⟨rfl, rfl, rfl, rfl, rfl, rfl, ?_⟩
  simp [playAgain, giveUp, hplay]

/-- Witness for C6: a won session (deactivated sample state) and a giveUp
from the sample Playing state, both at rendered size 800 × 600. -/
theorem playAgain_preserves_placement_witness :
    initialStateA.gameActive = false ∧
    samplePlaying.gameActive = true ∧
    (playAgain initialStateA).loc = initialStateA.loc ∧
    (playAgain (giveUp samplePlaying 800 600)).attempts = 0 ∧
    (playAgain (giveUp samplePlaying 800 600)).markers = [] ∧
    (playAgain (giveUp samplePlaying 800 600)).loc = samplePlaying.loc :=
  ⟨rfl, rfl,
   (playAgain_preserves_placement initialStateA samplePlaying 800 600 rfl rfl).2.2.2.1,
   (playAgain_preserves_placement initialStateA samplePlaying 800 600 rfl rfl).2.2.2.2.1,
   (playAgain_preserves_placement initialStateA samplePlaying 800 600 rfl rfl).2.2.2.2.2.1,
   (playAgain_preserves_placement initialStateA samplePlaying 800 600 rfl rfl).2.2.2.2.2.2⟩

/-- A session whose placement was delivered by the backend and which has an
appended marker, a message, and a chosen file — concrete input for the reset
theorems. -/
def staleState : GameStateA :=
  { gameActive := true
    attempts := 5
    processing := false
    loc := { x := 1/3, y := 2/3, radius := 42 }
    markers := [⟨10, 20, MarkerKind.miss, some 1000⟩]
    message := "Not quite! Keep looking..."
    fileInputValue := "photo.jpg"
    step := Step.game }

/-- Counterexample for C7: `resetGame` does not discard the placement.  From
a session whose placement came from the backend (here (1/3, 2/3) with radius
42), reset returns to the upload step but keeps every placement field
verbatim — the placement after reset still differs from the pristine initial
constant, so no field of it was discarded. -/
theorem reset_keeps_placement_counterexample :
    (resetGame staleState).loc = staleState.loc ∧
    (resetGame staleState).loc ≠ initialBatmanLocation ∧
    (resetGame staleState).step = Step.upload :=
  ⟨rfl,
   by norm_num [resetGame, staleState, initialBatmanLocation, Location.mk.injEq],
   rfl⟩

/-- Claim C7 (amended): reset is total and idempotent — from any state it
clears all markers, resets attempts to 0, deactivates the game, clears the
file input, and returns to the upload step, and in the timer variant it also
stops the timer, nulls the start time and discards the composite image
reference; applying reset twice equals applying it once, and on the initial
(Idle) state it is a no-op.  The stored placement, however, is left
unchanged by reset (it is only overwritten by the next successful processing
response). -/
theorem reset_idempotent_total (s : GameStateA) (t : TimedState) :
    resetGame (resetGame s) = resetGame s ∧
    (resetGame s).markers = [] ∧
    (resetGame s).attempts = 0 ∧
    (resetGame s).gameActive = false ∧
    (resetGame s).fileInputValue = "" ∧
    (resetGame s).step = Step.upload ∧
    (resetGame s).loc = s.loc ∧
    resetGame initialStateA = initialStateA ∧
    resetGameTimed (resetGameTimed t) = resetGameTimed t ∧
    (resetGameTimed t).compositeImagePath = none ∧
    (resetGameTimed t).timerRunning = false ∧
    (resetGameTimed t).startTime = none :=
  ⟨rfl, rfl, rfl, rfl, rfl, rfl, rfl, rfl, rfl, rfl, rfl, rfl⟩

/-- Counterexample for C8: selecting a non-image file (`text/plain`) is
ignored silently — the returned state is identical to the input state (its
message text included, so nothing new is displayed) and no processing is
started; no user-facing validation message is shown, contrary to the
claim. -/
theorem nonimage_no_message_counterexample :
    fileSelect initialStateA (some ⟨"text/plain"⟩) = (initialStateA, false) ∧
    (fileSelect initialStateA (some ⟨"text/plain"⟩)).1.message = "" :=
  ⟨rfl, rfl⟩

/-- Claim C8 (amended): a file-selection or drop event carrying a file whose
MIME type does not start with `image/` is rejected with no state change and
no processing started — but silently: the handler's guard simply skips the
body, so no user-facing validation message is shown. -/
theorem nonimage_silently_rejected (s : GameStateA) (f : UploadFile)
    (h : mimeTypeIsImage f.mimeType = false) :
    fileSelect s (some f) = (s, false) := by
  simp [fileSelect, h]

/-- Witness for C8 (amended) with a `text/plain` file from the Idle state. -/
theorem nonimage_silently_rejected_witness :
    mimeTypeIsImage "text/plain" = false ∧
    fileSelect initialStateA (some ⟨"text/plain"⟩) = (initialStateA, false) :=
  ⟨by decide, nonimage_silently_rejected initialStateA ⟨"text/plain"⟩ (by decide)⟩

/-- Counterexample for C9: a successful processing response that delivers
radius 0 does not give the session radius 0 — `data.batman.radius || 42`
treats the delivered 0 as falsy and substitutes the constant 42. -/
theorem radius_zero_substituted_counterexample :
    (applyProcessResponse initialStateA (1/4) (3/4) (some 0)).loc.radius = 42 ∧
    ¬ (applyProcessResponse initialStateA (1/4) (3/4) (some 0)).loc.radius = 0 := by
  refine ⟨by simp [applyProcessResponse, radiusFromResponse], ?_⟩
  norm_num [applyProcessResponse, radiusFromResponse]

/-- Claim C9 (amended): for a successful processing response, the session's
hit-test radius equals the radius delivered by the upstream response
whenever that value is present and nonzero; when the field is absent (or
zero, which JavaScript `||` treats as absent) the fallback constant 42 is
substituted instead. -/
theorem radius_authoritative_when_nonzero (s : GameStateA) (x y r : ℚ)
    (h : r ≠ 0) :
    (applyProcessResponse s x y (some r)).loc.radius = r ∧
    (applyProcessResponse s x y none).loc.radius = 42 := by
  refine ⟨?_, rfl⟩
  simp [applyProcessResponse, radiusFromResponse, h]

/-- Witness for C9 (amended) with delivered radius 7. -/
theorem radius_authoritative_when_nonzero_witness :
    (7 : ℚ) ≠ 0 ∧
    (applyProcessResponse initialStateA (1/4) (3/4) (some 7)).loc.radius = 7 :=
  ⟨by norm_num,
   (radius_authoritative_when_nonzero initialStateA (1/4) (3/4) 7 (by norm_num)).1⟩

/-- Claim C10: the click counter is incremented on every click processed
while Playing, including the winning hit-click itself (the increment happens
before the hit test, and the score is computed from the incremented count),
so every Won round reports at least one attempt and the maximum achievable
score is 950 (attained by a first-click win in under one second), not
1000. -/
theorem click_counter_includes_winning_click (s : TimedState) (loc : Location)
    (w h cx cy : ℚ) (now : ℕ) (hact : s.gameActive = true) :
    (handleClickTimed s loc w h cx cy now).clicks = s.clicks + 1 ∧
    (isHit cx cy loc w h = true →
      (handleClickTimed s loc w h cx cy now).finalScore =
        some (calculateScore (s.clicks + 1) ((now - s.startTime.getD 0) / 1000)) ∧
      1 ≤ (handleClickTimed s loc w h cx cy now).clicks) ∧
    (∀ c t : ℕ, 1 ≤ c → calculateScore c t ≤ 950) ∧
    calculateScore 1 0 = 950 := by
  refine ⟨?_, fun hhit => ?_, fun c t hc => ?_, by decide⟩
  · rcases Bool.eq_false_or_eq_true (isHit cx cy loc w h) with hb | hb
    · simp [handleClickTimed, hact, hb]
    · simp [handleClickTimed, hact, hb]
  · refine ⟨by simp [handleClickTimed, hact, hhit], ?_⟩
    simp [handleClickTimed, hact, hhit]
  · have hle : (1000 - (c : ℤ) * 50 - (t : ℤ) * 10) ≤ 950 := by omega
    exact max_le (by norm_num) hle

/-- Witness for C10: the winning first click from the sample timed Playing
state. -/
theorem click_counter_includes_winning_click_witness :
    sampleTimed.gameActive = true ∧
    isHit 400 300 initialBatmanLocation 800 600 = true ∧
    (handleClickTimed sampleTimed initialBatmanLocation 800 600 400 300 25000).clicks =
      sampleTimed.clicks + 1 ∧
    1 ≤ (handleClickTimed sampleTimed initialBatmanLocation 800 600 400 300 25000).clicks ∧
    calculateScore 1 0 = 950 :=
  ⟨rfl, by norm_num [isHit, distSq, initialBatmanLocation],
   (click_counter_includes_winning_click sampleTimed initialBatmanLocation
     800 600 400 300 25000 rfl).1,
   ((click_counter_includes_winning_click sampleTimed initialBatmanLocation
     800 600 400 300 25000 rfl).2.1
       (by norm_num [isHit, distSq, initialBatmanLocation])).2,
   (click_counter_includes_winning_click sampleTimed initialBatmanLocation
     800 600 400 300 25000 rfl).2.2.2⟩
